import Mathlib

/-!
Verification of the AetherRE conversational backend.

This file gives a shallow embedding, in Lean 4, of the parts of the
`backend` package that the verified properties concern:

* `backend/config/rate_limits.py` — the sliding-window rate limiter;
* `backend/services/chat.py` — `ChatSession` naming, `cleanup_old_sessions`
  and the `stream_chat_response` orchestrator;
* `backend/services/ai_tools_service.py` — the tool registry, `AITool.execute`,
  `AIToolsService.execute_tool`, `set_session` and `_jump_to_function`;
* `backend/services/session_manager.py` — `clear_session_associations`;
* `backend/services/function_context.py` — the session → function cursor map.

Python `datetime` values are modelled as integer seconds, dictionaries as
association lists (insertion ordered, first hit wins, like CPython dicts),
and the streaming OpenAI client as an oracle record that supplies the
fragments/deltas each completion call of a turn would produce.
-/

namespace AetherRE

/-! ## Rate limiter (`backend/config/rate_limits.py`) -/

/-- `RATE_LIMIT['requests_per_minute']`. -/
def requests_per_minute : Nat := 5

/-- `RATE_LIMIT['requests_per_hour']`. -/
def requests_per_hour : Nat := 50

/-- `RATE_LIMIT['requests_per_day']`. -/
def requests_per_day : Nat := 250

/-- The three deques of `request_timestamps`, oldest entry first
(appends go at the back, `popleft` removes at the front). -/
structure RateState where
  minute : List Int
  hour : List Int
  day : List Int
deriving Repr, DecidableEq

/-- The fresh `request_timestamps` store: all three deques empty. -/
def emptyRate : RateState := ⟨[], [], []⟩

/-- The initial cleanup loop of `check_rate_limit`: pop entries with
`(now - window[0]) > timedelta(days=1)` from the front. -/
def pruneOld (now : Int) (w : List Int) : List Int :=
  w.dropWhile (fun t => decide (now - t > 86400))

/-- The per-window pruning loop: pop entries with `window[0] < cutoff`
from the front (`cutoff` is `minute_ago`/`hour_ago`/`day_ago`). -/
def pruneBefore (cutoff : Int) (w : List Int) : List Int :=
  w.dropWhile (fun t => decide (t < cutoff))

/-- `deque.append` with `maxlen`: a full deque drops its oldest entry. -/
def dequeAppend (maxlen : Nat) (w : List Int) (t : Int) : List Int :=
  if w.length ≥ maxlen then w.drop 1 ++ [t] else w ++ [t]

/-- `check_rate_limit()`, with `now` made explicit.  Returns the
`(allowed, error_message)` pair together with the mutated deques. -/
def check_rate_limit (now : Int) (s : RateState) : Bool × Option String × RateState :=
  let s1 : RateState := ⟨pruneOld now s.minute, pruneOld now s.hour, pruneOld now s.day⟩
  let m := pruneBefore (now - 60) s1.minute
  if m.length ≥ requests_per_minute then
    (false, some "Rate limit exceeded: Too many requests per minute", ⟨m, s1.hour, s1.day⟩)
  else
    let h := pruneBefore (now - 3600) s1.hour
    if h.length ≥ requests_per_hour then
      (false, some "Rate limit exceeded: Too many requests per hour", ⟨m, h, s1.day⟩)
    else
      let d := pruneBefore (now - 86400) s1.day
      if d.length ≥ requests_per_day then
        (false, some "Rate limit exceeded: Too many requests per day", ⟨m, h, d⟩)
      else
        (true, none,
          ⟨dequeAppend requests_per_minute m now,
           dequeAppend requests_per_hour h now,
           dequeAppend requests_per_day d now⟩)

/-! ## Small Python string helpers -/

/-- The double-quote character (written via its code point). -/
def quoteChar : Char := Char.ofNat 34

/-- The single-quote character (written via its code point). -/
def aposChar : Char := Char.ofNat 39

/-- Helper for `pySplit`: `acc` holds the current word reversed. -/
def pySplitGo : List Char → List Char → List String
  | acc, [] => if acc = [] then [] else [⟨acc.reverse⟩]
  | acc, c :: cs =>
    if c.isWhitespace then
      if acc = [] then pySplitGo [] cs else ⟨acc.reverse⟩ :: pySplitGo [] cs
    else
      pySplitGo (c :: acc) cs

/-- Python `str.split()` with no argument: split on whitespace runs,
dropping empty pieces. -/
def pySplit (s : String) : List String :=
  pySplitGo [] s.data

/-- Python `str.strip()` with no argument: drop leading and trailing
whitespace. -/
def pyStrip (s : String) : String :=
  ⟨((s.data.dropWhile Char.isWhitespace).reverse.dropWhile Char.isWhitespace).reverse⟩

/-- Python `str.lower()` (ASCII). -/
def pyLower (s : String) : String :=
  ⟨s.data.map Char.toLower⟩

/-- Python slicing `s[:n]` (counted in code points). -/
def pyTake (s : String) (n : Nat) : String :=
  ⟨s.data.take n⟩

/-- Whether the first list is an initial segment of the second. -/
def listLeads : List Char → List Char → Bool
  | [], _ => true
  | _ :: _, [] => false
  | a :: as, b :: bs => a = b && listLeads as bs

/-- Python `str.startswith(pre)`. -/
def pyStartsWith (s pre : String) : Bool :=
  listLeads pre.data s.data

/-- Helper for `pyTitle`: walk the characters remembering whether the
previous one was alphabetic. -/
def pyTitleGo : Bool → List Char → List Char
  | _, [] => []
  | prevAlpha, c :: cs =>
    let c' := if c.isAlpha then (if prevAlpha then c.toLower else c.toUpper) else c
    c' :: pyTitleGo c.isAlpha cs

/-- Python `str.title()` (ASCII): the first letter of each alphabetic run
is uppercased, the following letters lowercased. -/
def pyTitle (s : String) : String :=
  ⟨pyTitleGo false s.data⟩

/-- Python `str.strip('"\'')`: remove leading and trailing quote characters. -/
def stripQuotes (s : String) : String :=
  let isQ := fun c => c = quoteChar ∨ c = aposChar
  ⟨((s.data.dropWhile isQ).reverse.dropWhile isQ).reverse⟩

/-! ## `ChatSession` naming (`backend/services/chat.py`, lines 26-150) -/

/-- The context dictionary consumed by the naming helpers: the
`functionName` / `address` / `binaryName` keys of a context dict
(absent keys are read back as `''` by `.get(..., '')`). -/
structure FunctionContext where
  functionName : String
  address : String
  binaryName : String
deriving Repr, DecidableEq

/-- `ChatSession.generate_name`: first three words of the first message,
title-cased and truncated to 30 characters, or `"Chat <id[:8]>"` when the
message has no words. -/
def generate_name (session_id first_message : String) : String :=
  let words := (pySplit first_message).take 3
  if words ≠ [] then
    let name := pyTitle (String.intercalate " " words)
    if name.length > 30 then pyTake name 27 ++ "..." else name
  else
    "Chat " ++ pyTake session_id 8

/-- `ChatSession.generate_name_with_context`. -/
def generate_name_with_context (session_id first_message : String)
    (function_context : Option FunctionContext) : String :=
  match function_context with
  | none => generate_name session_id first_message
  | some c =>
    let function_name := c.functionName
    let address := c.address
    let message_words := (pySplit first_message).take 2
    let head_parts :=
      if function_name ≠ "" ∧ function_name ≠ "Unknown Function" ∧
          ¬ pyStartsWith function_name "FUN_" ∧ ¬ pyStartsWith function_name "SUB_" then
        [function_name]
      else if address ≠ "" ∧ address ≠ "0x0" then
        [address]
      else []
    let name_parts := head_parts ++ message_words
    if name_parts ≠ [] then
      let name := String.intercalate " " (name_parts.take 6)
      if name.length > 50 then pyTake name 47 ++ "..." else name
    else
      generate_name session_id first_message

/-- `ChatSession.generate_name_async`.  The OpenAI completion used for
naming is an oracle: `.error e` models a raised exception (caught by the
internal `try`), `.ok raw` the returned title text.  Returns the name the
method stores; it never raises. -/
def generate_name_async (session_id first_message : String)
    (function_context : Option FunctionContext)
    (api_key_set : Bool) (api : Except String String) : String :=
  if ¬ api_key_set then
    generate_name_with_context session_id first_message function_context
  else
    match api with
    | .error _ => generate_name_with_context session_id first_message function_context
    | .ok raw =>
      let generated_name := stripQuotes (pyStrip raw)
      if generated_name ≠ "" ∧ generated_name.length ≤ 60 then generated_name
      else generate_name_with_context session_id first_message function_context

/-! ## Sessions and shared collaborator state -/

/-- A `ChatSession`: id, ordered message list (role, content), timestamps
and the optional generated name. -/
structure ChatSessionState where
  session_id : String
  messages : List (String × String)
  created_at : Int
  last_activity : Int
  name : Option String
deriving Repr, DecidableEq

/-- `ChatSession.__init__`. -/
def freshSession (session_id : String) (now : Int) : ChatSessionState :=
  ⟨session_id, [], now, now, none⟩

/-- Python dict assignment `d[k] = v` on an association list: replace in
place if the key exists, else append. -/
def insertAL {α : Type} : List (String × α) → String → α → List (String × α)
  | [], k, v => [(k, v)]
  | p :: t, k, v => if p.1 = k then (k, v) :: t else p :: insertAL t k v

/-- The `chat_sessions` module dict. -/
abbrev SessionStore := List (String × ChatSessionState)

/-- The shared state of `SessionManager` and `FunctionContextService`
that a turn of `stream_chat_response` touches. -/
structure CollabState where
  /-- `SessionManager.current_session_by_user` (user id → session id). -/
  sm_current : List (String × String)
  /-- `SessionManager.session_function_mappings` (session id → function id). -/
  sm_mappings : List (String × String)
  /-- `FunctionContextService.session_context_states` (session id → function id). -/
  ctx_states : List (String × String)
  /-- `AIToolsService.current_session_id` (a single process-wide field). -/
  tools_current : Option String
deriving Repr, DecidableEq

/-! ## Streamed events

One SSE `data:` record of `stream_chat_response`, keyed by the `type` /
`error_type` fields it carries. -/

inductive Event where
  /-- `{'reply': content, ...}` with no `type` tag: a visible reply fragment. -/
  | reply (content : String)
  /-- `{'reply': content, ..., 'type': 'thinking'}`. -/
  | thinking (content : String)
  /-- `{'reply': content, ..., 'type': 'tool_call'}`. -/
  | toolCallMark (content : String)
  /-- `{'type': 'remove_thinking', ...}`. -/
  | removeThinking
  /-- `{'reply': content, ..., 'error_type': errorType}`. -/
  | errorEvent (content : String) (errorType : String)
deriving Repr, DecidableEq

/-! ## Tool-call delta assembly (`stream_chat_response`, lines 458-481) -/

/-- One entry of `delta.tool_calls` in a streamed chunk.  Optional fields
model both missing attributes and Python-falsy values. -/
structure TCDelta where
  index : Option Nat
  id : Option String
  name : Option String
  arguments : Option String

/-- An assembled tool call `{"id": ..., "function": {"name": ..., "arguments": ...}}`. -/
structure ToolCallRec where
  id : String
  name : String
  arguments : String
deriving Repr, DecidableEq

/-- Python truthiness of an optional string (`None` and `''` are falsy). -/
def truthyS (o : Option String) : Bool := o.getD "" ≠ ""

/-- The `while len(new_tool_calls) <= tc.index: append(...)` loop. -/
def padCalls (l : List ToolCallRec) (idx : Nat) : List ToolCallRec :=
  l ++ List.replicate (idx + 1 - l.length) ⟨"", "", ""⟩

/-- Processing one `tc` of a chunk's `delta.tool_calls`: ensure the list
is long enough, then merge id (overwrite), name (overwrite) and arguments
(concatenate) into the call at `tc.index`. -/
def applyTCDelta (l : List ToolCallRec) (tc : TCDelta) : List ToolCallRec :=
  match tc.index with
  | none => l
  | some idx =>
    let l' := padCalls l idx
    match l'.get? idx with
    | none => l'
    | some tgt =>
      let tgt1 := if truthyS tc.id then { tgt with id := tc.id.getD "" } else tgt
      let tgt2 := if truthyS tc.name then { tgt1 with name := tc.name.getD "" } else tgt1
      let tgt3 :=
        if truthyS tc.arguments then
          { tgt2 with arguments := tgt2.arguments ++ tc.arguments.getD "" }
        else tgt2
      l'.set idx tgt3

/-- Folding a whole tool-selection stream into `new_tool_calls`. -/
def assembleDeltas (ds : List TCDelta) : List ToolCallRec :=
  ds.foldl applyTCDelta []

/-- `for call in new_tool_calls: if call["function"]["name"]: queue it`. -/
def executableCalls (l : List ToolCallRec) : List ToolCallRec :=
  l.filter (fun c => c.name ≠ "")

/-! ## AI tools service (`backend/services/ai_tools_service.py`) -/

/-- Parsed tool arguments: a JSON object modelled as key/value pairs, the
values taken in their printed form. -/
abbrev Args := List (String × String)

/-- The result dict produced by `AITool.execute` / `AIToolsService.execute_tool`.
The "Tool not found" dict carries neither a `tool` nor a `timestamp` key,
hence the optional fields. -/
structure ToolExecutionResult where
  success : Bool
  result : Option String
  error : Option String
  tool : Option String
  timestamp : Option Int
deriving Repr, DecidableEq

/-- An `AITool`: its handler either returns a string (the tool payload) or
raises; `.error e` carries `str(e)`. -/
structure AITool where
  name : String
  description : String
  handler : Args → Except String String

/-- `AITool.execute`: run the handler inside `try`, wrapping success and
converting an exception into a failure result with the exception text. -/
def AITool.execute (t : AITool) (now : Int) (kwargs : Args) : ToolExecutionResult :=
  match t.handler kwargs with
  | .ok r => ⟨true, some r, none, some t.name, some now⟩
  | .error e => ⟨false, none, some e, some t.name, some now⟩

/-- The registry part of `AIToolsService`: `self.tools` (name → tool). -/
structure ToolRegistry where
  tools : List (String × AITool)

/-- `AIToolsService.get_tool`. -/
def ToolRegistry.get_tool (svc : ToolRegistry) (name : String) : Option AITool :=
  svc.tools.lookup name

/-- `AIToolsService.register_tool`: idempotent upsert into `self.tools`. -/
def ToolRegistry.register_tool (svc : ToolRegistry) (t : AITool) : ToolRegistry :=
  ⟨insertAL svc.tools t.name t⟩

/-- `AIToolsService.execute_tool`: unknown names yield a failure dict
without raising; otherwise defer to `AITool.execute`. -/
def ToolRegistry.execute_tool (svc : ToolRegistry) (now : Int)
    (tool_name : String) (parameters : Args) : ToolExecutionResult :=
  match svc.get_tool tool_name with
  | none => ⟨false, none, some ("Tool not found: " ++ tool_name), none, none⟩
  | some t => t.execute now parameters

/-! ### Session cursor plumbing of the tool service

`FunctionContextService` state and the tools that read/navigate through
the service's process-wide `current_session_id` field. -/

/-- One cached entry of `FunctionContextService.current_function_data`. -/
structure FuncData where
  function_name : String
  address : String
  binary_name : String
  pseudocode : String
deriving Repr, DecidableEq

/-- `FunctionContextService`: function cache and session → function cursor map. -/
structure CtxServiceState where
  current_function_data : List (String × FuncData)
  session_context_states : List (String × String)
deriving Repr, DecidableEq

/-- `FunctionContextService.set_session_function`. -/
def set_session_function (ctx : CtxServiceState) (session_id function_id : String) :
    CtxServiceState :=
  { ctx with session_context_states := insertAL ctx.session_context_states session_id function_id }

/-- `FunctionContextService.set_current_function` (restricted to the fields
the modelled tools read). -/
def set_current_function (ctx : CtxServiceState) (function_id : String) (d : FuncData) :
    CtxServiceState :=
  { ctx with current_function_data := insertAL ctx.current_function_data function_id d }

/-- The mutable fields of `AIToolsService` that tool dispatch reads: the
process-wide current session and binary, plus the loaded per-binary
function lists (file loading is modelled by a pre-populated cache; a miss
reads back as the empty list, as after a failed load). -/
structure ToolsServiceState where
  current_session_id : Option String
  current_binary_name : Option String
  binary_functions_cache : List (String × List FuncData)
deriving Repr, DecidableEq

/-- `AIToolsService.set_session`: overwrite the process-wide
`current_session_id`, then derive `current_binary_name` from the cursor of
that session. -/
def set_session (ts : ToolsServiceState) (ctx : CtxServiceState) (session_id : String) :
    ToolsServiceState :=
  let ts1 := { ts with current_session_id := some session_id }
  match ctx.session_context_states.lookup session_id with
  | none => ts1
  | some function_id =>
    match ctx.current_function_data.lookup function_id with
    | none => ts1
    | some d => { ts1 with current_binary_name := some d.binary_name }

/-- `AIToolsService.get_binary_functions` for the current binary. -/
def get_binary_functions (ts : ToolsServiceState) : List FuncData :=
  match ts.current_binary_name with
  | none => []
  | some b => if b = "" then [] else (ts.binary_functions_cache.lookup b).getD []

/-- The `_get_pseudocode` tool: a pure read resolved through the
process-wide `current_session_id` and that session's cursor. -/
def toolGetPseudocode (ts : ToolsServiceState) (ctx : CtxServiceState) : String :=
  match ts.current_session_id with
  | none => "No active session"
  | some sid =>
    match ctx.session_context_states.lookup sid with
    | none => "Pseudocode not available"
    | some function_id =>
      match ctx.current_function_data.lookup function_id with
      | none => "Pseudocode not available"
      | some d => "Pseudocode:\n" ++ d.pseudocode

/-- The `_jump_to_function` tool: look the target up by (case-insensitive)
name or address in the current binary's functions, cache its data, and
repoint the cursor of the session named by the process-wide
`current_session_id`.  Returns the mutated context service state and the
tool's reply text. -/
def toolJumpToFunction (ts : ToolsServiceState) (ctx : CtxServiceState)
    (function_id : String) : CtxServiceState × String :=
  if truthyS ts.current_binary_name = false then
    (ctx, "No binary context available")
  else
    let all_functions := get_binary_functions ts
    if all_functions = [] then
      (ctx, "No functions available in binary " ++ (ts.current_binary_name.getD ""))
    else
      match all_functions.find? (fun f =>
          pyLower function_id = pyLower f.function_name ∨
          pyLower function_id = pyLower f.address) with
      | none =>
        let available := (all_functions.take 5).map
          (fun f => "- " ++ f.function_name ++ " at " ++ f.address)
        let msg := "Function " ++ aposChar.toString ++ function_id ++ aposChar.toString ++
          " not found\n" ++ "Available functions (" ++ toString all_functions.length ++
          " total):\n" ++ String.intercalate "\n" available ++
          (if all_functions.length > 5 then
            "\n... and " ++ toString (all_functions.length - 5) ++ " more"
          else "")
        (ctx, msg)
      | some f =>
        let new_function_id := f.address
        let ctx1 :=
          if (ctx.current_function_data.lookup new_function_id).isNone then
            set_current_function ctx new_function_id f
          else ctx
        let ctx2 :=
          match ts.current_session_id with
          | some sid => set_session_function ctx1 sid new_function_id
          | none => ctx1
        (ctx2, "Jumped to function: " ++ f.function_name ++ " at " ++ f.address ++
          ". You can now analyze this function with other tools.")

/-! ## Session manager sweep (`session_manager.py`, `chat.py` lines 156-164) -/

/-- The two dicts of `SessionManager`. -/
structure SessionManagerState where
  current_session_by_user : List (String × String)
  session_function_mappings : List (String × String)
deriving Repr, DecidableEq

/-- `SessionManager.clear_session_associations`: drop the session's entry
from `session_function_mappings` and every `current_session_by_user` entry
pointing at it.  (It does not touch `FunctionContextService`.) -/
def clear_session_associations (sm : SessionManagerState) (session_id : String) :
    SessionManagerState :=
  { session_function_mappings := sm.session_function_mappings.filter (fun p => p.1 ≠ session_id),
    current_session_by_user := sm.current_session_by_user.filter (fun p => p.2 ≠ session_id) }

/-- `SESSION_TIMEOUT_HOURS` from `backend/config/settings.py`. -/
def SESSION_TIMEOUT_HOURS : Int := 24

/-- `cleanup_old_sessions` from `chat.py`: remove every session whose
`last_activity` is more than `SESSION_TIMEOUT_HOURS` old and call
`clear_session_associations` for it.  The `FunctionContextService` state is
passed through untouched because the sweep never calls into it. -/
def cleanup_old_sessions (now : Int) (sessions : SessionStore)
    (sm : SessionManagerState) (ctx : CtxServiceState) :
    SessionStore × SessionManagerState × CtxServiceState :=
  let isOld := fun (p : String × ChatSessionState) =>
    now - p.2.last_activity > SESSION_TIMEOUT_HOURS * 3600
  let sessions_to_remove := (sessions.filter (fun p => isOld p)).map Prod.fst
  let sessions' := sessions.filter (fun p => ¬ isOld p)
  let sm' := sessions_to_remove.foldl clear_session_associations sm
  (sessions', sm', ctx)

/-! ## The orchestrator (`stream_chat_response`, `chat.py` lines 166-776)

The remote completion client is modelled by an `Oracle` that lists, per
completion call of the turn, the content fragments / tool-call deltas its
stream would deliver (`if delta.content:` skips falsy fragments, which the
embedding keeps and filters exactly where the source does).  `json.loads`
and `re.findall` are likewise oracle functions.  Tool execution is a
caller-supplied function: the loop's control flow does not depend on the
result (success and failure are both folded into the working message
list), which the embedding reflects by recording only the execution
count. -/

structure Oracle where
  /-- `datetime.now()` for the turn. -/
  now : Int
  /-- The md5 session id minted when a new session is created. -/
  newSessionId : String
  /-- Whether `openai.api_key` is configured. -/
  apiKeySet : Bool
  /-- The function context handed to `generate_name_async`. -/
  fc : Option FunctionContext
  /-- Whether the `try` around context fetching + naming raises before
  `generate_name_async` finishes (the `except` then calls `generate_name`). -/
  nameWrapperFails : Bool
  /-- The naming completion used at the first naming site. -/
  nameApi : Except String String
  /-- The naming completion used at the (dead) second naming site. -/
  nameApi2 : Except String String
  /-- Content fragments of the STEP-0 initial/plan completion. -/
  initialFragments : List String
  /-- Content fragments of the pre-loop STEP-1 reasoning completion. -/
  reasonFragments : List String
  /-- Tool-call deltas of the pre-loop STEP-2 selection completion. -/
  selectDeltas : List TCDelta
  /-- Content fragments of the reasoning completion inside loop pass `k`. -/
  loopReason : Nat → List String
  /-- Tool-call deltas of the selection completion inside loop pass `k`. -/
  loopSelect : Nat → List TCDelta
  /-- Content fragments of the final summary completion. -/
  summaryFragments : List String
  /-- Content fragments of the single manual-mode completion. -/
  manualFragments : List String
  /-- `json.loads` on an argument string: `none` models `JSONDecodeError`. -/
  parseJson : String → Option Args
  /-- `re.findall(r'(?:calling|call)\s+(\w+)(?:\(([^)]*)\))?', text)`. -/
  findMentions : String → List (String × String)

/-- `max_iterations` of the iterative workflow. -/
def max_iterations : Nat := 5

/-- The `"*Analysis completed after N tool calls.*"` notice appended when
at least one tool was executed. -/
def limitMsg (n : Nat) : String :=
  "\n\n*Analysis completed after " ++ toString n ++ " tool calls.*"

/-- What one run of the iterative `while` loop produced. -/
structure LoopOut where
  events : List Event
  executed : Nat
  completionCalls : Nat
  queue : List ToolCallRec

/-- The iterative workflow loop
(`while tool_calls and current_iteration < max_iterations`), with
`fuel = max_iterations - current_iteration` and `k` the number of passes
already completed.  Each pass pops one queued call, streams its
`tool_call` marker, executes it, streams the next reasoning as
`thinking`, and appends the newly selected executable calls. -/
def runLoop (o : Oracle) (exec : String → Args → ToolExecutionResult) :
    Nat → Nat → List ToolCallRec → LoopOut
  | 0, _, q => ⟨[], 0, 0, q⟩
  | _ + 1, _, [] => ⟨[], 0, 0, []⟩
  | fuel + 1, k, call :: rest =>
    let tool_args := (o.parseJson call.arguments).getD []
    let tool_msg :=
      if tool_args ≠ [] then
        "Calling " ++ call.name ++ "(" ++
          String.intercalate ", " (tool_args.map (fun p => p.1 ++ "=" ++ p.2)) ++ ")"
      else
        "Calling " ++ call.name ++ "()"
    let _ := exec call.name tool_args
    let thinkEvents :=
      (((o.loopReason k).filter (fun c => c ≠ "")).filter (fun c => pyStrip c ≠ "")).map
        Event.thinking
    let newCalls := executableCalls (assembleDeltas (o.loopSelect k))
    let r := runLoop o exec fuel (k + 1) (rest ++ newCalls)
    ⟨Event.toolCallMark tool_msg :: (thinkEvents ++ r.events),
      r.executed + 1, r.completionCalls + 2, r.queue⟩

/-- What one mode branch of the turn produced.  `toolCallsAfter` is the
final value of the local `tool_calls` variable when the branch falls
through to the history append. -/
structure BodyOut where
  events : List Event
  fullReply : String
  executed : Nat
  completionCalls : Nat
  toolCallsAfter : List ToolCallRec

/-- The whitelist the text-recovery path accepts. -/
def recoveryToolNames : List String :=
  ["get_pseudocode", "get_assembly", "get_variables", "get_xrefs", "get_strings",
   "search_functions", "jump_to_function"]

/-- The AI-tools mode of the turn, from STEP 0 through the summary /
recovery sections.  Plan fragments are streamed as plain replies and
accumulated into `full_reply`; the pre-loop reasoning fragments are
streamed tagged `thinking` yet *also* accumulated into `full_reply`
(chat.py line 432); in-loop reasoning is not.  When the structured
selection yields no call, the recovery section synthesizes calls from
text mentions and reassigns `tool_calls`, but control has already passed
the execution block, so they are never executed: the branch ends with
`executed = 0` and the synthesized calls left in `toolCallsAfter`. -/
def aiBody (o : Oracle) (exec : String → Args → ToolExecutionResult) : BodyOut :=
  let initF := o.initialFragments.filter (fun c => c ≠ "")
  let reasonF := o.reasonFragments.filter (fun c => c ≠ "")
  let initEvents := initF.map Event.reply
  let reasonEvents := (reasonF.filter (fun c => pyStrip c ≠ "")).map Event.thinking
  let fullReply0 := String.join initF ++ String.join reasonF
  let queue0 := executableCalls (assembleDeltas o.selectDeltas)
  if queue0 ≠ [] then
    let L := runLoop o exec max_iterations 0 queue0
    let summaryF := o.summaryFragments.filter (fun c => c ≠ "")
    let summaryEvents := summaryF.map Event.reply
    let afterSummary := fullReply0 ++ String.join summaryF
    if L.executed ≠ 0 then
      ⟨initEvents ++ reasonEvents ++ L.events ++ [Event.removeThinking] ++
        summaryEvents ++ [Event.reply (limitMsg L.executed)],
       afterSummary ++ limitMsg L.executed, L.executed, 3 + L.completionCalls + 1, L.queue⟩
    else
      ⟨initEvents ++ reasonEvents ++ L.events ++ [Event.removeThinking] ++ summaryEvents,
       afterSummary, L.executed, 3 + L.completionCalls + 1, L.queue⟩
  else
    let text_tool_matches := o.findMentions (pyLower fullReply0)
    let manual_tool_calls :=
      (text_tool_matches.filter (fun m => recoveryToolNames.contains m.1)).map
        (fun m => ({ id := "", name := m.1, arguments := "\x7b\x7d" } : ToolCallRec))
    ⟨initEvents ++ reasonEvents, fullReply0, 0, 3, manual_tool_calls⟩

/-- The canned reply used when manual mode streamed nothing. -/
def manualFallbackMsg : String :=
  "I understand you want to analyze this function. Please provide more specific details about what you" ++
    aposChar.toString ++ "d like me to examine."

/-- Manual (non-tool) mode: one completion call streamed as plain
replies, with the canned fallback when nothing was streamed. -/
def manualBody (o : Oracle) : BodyOut :=
  let manF := o.manualFragments.filter (fun c => c ≠ "")
  let fullReply0 := String.join manF
  if fullReply0 = "" then
    ⟨[Event.reply manualFallbackMsg], manualFallbackMsg, 0, 1, []⟩
  else
    ⟨manF.map Event.reply, fullReply0, 0, 1, []⟩

/-- The request payload of one turn. -/
structure TurnInput where
  message : String
  session_id : Option String
  function_id : Option String
  use_ai_tools : Bool

/-- Everything one turn of `stream_chat_response` produced: the ordered
event stream, the mutated stores, and bookkeeping counters of the
embedding (`executed` counts `ai_tools_service.execute_tool` awaits,
`completionCalls` counts completion requests, `nameAttempts` counts
naming attempts). -/
structure TurnResult where
  events : List Event
  sessions : SessionStore
  collab : CollabState
  rate : RateState
  sid : String
  fullReply : String
  executed : Nat
  completionCalls : Nat
  nameAttempts : Nat
  toolCallsAfter : List ToolCallRec

/-- One turn of `stream_chat_response`, on the success path of the
`try` (upstream completion failures abort differently and are out of the
modelled claims).  Follows the source order: admission check, session
resolution, function association, user-message append, first naming site,
API-key check, mode body, assistant-message append, second naming site. -/
def streamChatResponse (o : Oracle) (exec : String → Args → ToolExecutionResult)
    (rate : RateState) (sessions : SessionStore) (collab : CollabState)
    (inp : TurnInput) : TurnResult :=
  let c := check_rate_limit o.now rate
  let rate' := c.2.2
  if c.1 = false then
    { events := [Event.reply ("Rate limit exceeded. Please try again later. " ++ (c.2.1).getD "")],
      sessions := sessions, collab := collab, rate := rate', sid := "",
      fullReply := "", executed := 0, completionCalls := 0, nameAttempts := 0,
      toolCallsAfter := [] }
  else
    let sid0 := inp.session_id.getD ""
    let isNew : Bool := sid0 == "" || (sessions.lookup sid0).isNone
    let sid := if isNew then o.newSessionId else sid0
    let sessions1 :=
      if isNew then insertAL sessions o.newSessionId (freshSession o.newSessionId o.now)
      else sessions
    let collab1 :=
      if isNew then { collab with sm_current := insertAL collab.sm_current "default" sid }
      else collab
    let fid := inp.function_id.getD ""
    let collab2 :=
      if fid ≠ "" then
        { collab1 with sm_mappings := insertAL collab1.sm_mappings sid fid,
                       ctx_states := insertAL collab1.ctx_states sid fid }
      else collab1
    let collab3 :=
      if inp.use_ai_tools then { collab2 with tools_current := some sid } else collab2
    let session0 := (sessions1.lookup sid).getD (freshSession sid o.now)
    let session1 := { session0 with
      messages := session0.messages ++ [("user", inp.message)], last_activity := o.now }
    let doName : Bool := session1.name.isNone && session1.messages.length == 1
    let nameChoice :=
      if o.nameWrapperFails then generate_name sid inp.message
      else generate_name_async sid inp.message o.fc o.apiKeySet o.nameApi
    let session2 := { session1 with name :=
      (if doName then some nameChoice else session1.name) }
    let attempts1 : Nat := if doName then 1 else 0
    if o.apiKeySet = false then
      { events := [Event.errorEvent
          "OpenAI API key not configured. Please set your API key in the backend configuration."
          "configuration_error"],
        sessions := insertAL sessions1 sid session2, collab := collab3, rate := rate',
        sid := sid, fullReply := "", executed := 0, completionCalls := 0,
        nameAttempts := attempts1, toolCallsAfter := [] }
    else
      let b := if inp.use_ai_tools then aiBody o exec else manualBody o
      let session3 := { session2 with
        messages := session2.messages ++ [("assistant", b.fullReply)], last_activity := o.now }
      let doName2 : Bool := session3.messages.length == 2 && session3.name.isNone
      let session4 := { session3 with name :=
        (if doName2 then
          some (generate_name_async sid inp.message none o.apiKeySet o.nameApi2)
        else session3.name) }
      { events := b.events, sessions := insertAL sessions1 sid session4, collab := collab3,
        rate := rate', sid := sid, fullReply := b.fullReply, executed := b.executed,
        completionCalls := b.completionCalls,
        nameAttempts := attempts1 + (if doName2 then 1 else 0),
        toolCallsAfter := b.toolCallsAfter }

/-! ## Derived observations on a turn -/

/-- Concatenation, in delivery order, of the visible (untagged) reply
fragments of an event stream. -/
def visibleReplyText (evs : List Event) : String :=
  String.join (evs.filterMap (fun e => match e with
    | Event.reply ctnt => some ctnt
    | _ => none))

/-- The last message recorded in the turn's session after the turn. -/
def lastStoredMessage (r : TurnResult) : Option (String × String) :=
  (r.sessions.lookup r.sid).bind (fun s => s.messages.getLast?)

/-- The name recorded in the turn's session after the turn. -/
def storedName (r : TurnResult) : Option (Option String) :=
  (r.sessions.lookup r.sid).map (fun s => s.name)

/-! ## Concrete instances used by witnesses and counterexamples -/

/-- A canned tool executor (the loop's control flow ignores the result). -/
def execStub : String → Args → ToolExecutionResult :=
  fun n _ => ⟨true, some "ok", none, some n, some 0⟩

/-- Empty collaborator state. -/
def collab0 : CollabState := ⟨[], [], [], none⟩

/-- A baseline oracle: every completion streams nothing, naming API down. -/
def emptyOracle : Oracle :=
  { now := 0, newSessionId := "s1", apiKeySet := true, fc := none,
    nameWrapperFails := false, nameApi := Except.error "api down",
    nameApi2 := Except.error "api down",
    initialFragments := [], reasonFragments := [], selectDeltas := [],
    loopReason := fun _ => [], loopSelect := fun _ => [],
    summaryFragments := [], manualFragments := [],
    parseJson := fun _ => none, findMentions := fun _ => [] }

/-- The literal two-character argument text `"{}"`. -/
def emptyArgsText : String := "\x7b\x7d"

/-- A single-chunk tool-selection delta naming `get_pseudocode`. -/
def dSelect : TCDelta := ⟨some 0, some "call_1", some "get_pseudocode", some emptyArgsText⟩

/-- Oracle for a turn whose every selection phase proposes one more call. -/
def oC1 : Oracle :=
  { emptyOracle with
    initialFragments := ["Plan."],
    selectDeltas := [dSelect],
    loopSelect := fun _ => [dSelect],
    summaryFragments := ["Summary."] }

/-- An AI-tools-mode request. -/
def inpAI : TurnInput := ⟨"analyze this function", none, none, true⟩

/-- Oracle with a visible plan fragment and a thinking-tagged reasoning
fragment, and no tool selection. -/
def oC2 : Oracle :=
  { emptyOracle with initialFragments := ["Plan."], reasonFragments := ["Deep thought."] }

/-- Oracle whose structured selection is empty while the streamed text
mentions a tool; `findMentions` returns what
`re.findall(r'(?:calling|call)\s+(\w+)(?:\(([^)]*)\))?', ...)` returns on
the lowercased reply text. -/
def oC4 : Oracle :=
  { emptyOracle with
    initialFragments := ["I will start by calling get_pseudocode to inspect the code."],
    findMentions := fun _ => [("get_pseudocode", "")] }

/-- Oracle for a manual-mode turn streaming two fragments. -/
def oC3 : Oracle := { emptyOracle with manualFragments := ["Hello ", "world"] }

/-- A manual-mode request. -/
def inpManual : TurnInput := ⟨"hi there", none, none, false⟩

/-- Cached function A for the cursor scenarios. -/
def fA : FuncData := ⟨"funcA", "0x1000", "bin", "PA"⟩

/-- Cached function B for the cursor scenarios. -/
def fB : FuncData := ⟨"funcB", "0x2000", "bin", "PB"⟩

/-- Context service with sessions `A` and `B` bound to different functions. -/
def ctx6 : CtxServiceState :=
  ⟨[("0x1000", fA), ("0x2000", fB)], [("A", "0x1000"), ("B", "0x2000")]⟩

/-- A fresh tools service whose binary cache holds both functions. -/
def ts0 : ToolsServiceState := ⟨none, none, [("bin", [fA, fB])]⟩

/-- A tool whose handler returns normally. -/
def echoTool : AITool := ⟨"echo", "echo tool", fun _ => Except.ok "echoed"⟩

/-- A tool whose handler raises. -/
def failTool : AITool := ⟨"boom", "raising tool", fun _ => Except.error "handler exploded"⟩

/-- A registry holding the two sample tools. -/
def sampleRegistry : ToolRegistry := ⟨[("echo", echoTool), ("boom", failTool)]⟩

/-- A session stale for far longer than the timeout. -/
def oldSession : ChatSessionState :=
  ⟨"s", [("user", "hi"), ("assistant", "hello")], 0, 0, some "Hi"⟩

/-- Session-manager state holding associations for session `s`. -/
def sm9 : SessionManagerState := ⟨[("default", "s")], [("s", "0x1000")]⟩

/-- Context service whose cursor map binds session `s`. -/
def ctx9 : CtxServiceState := ⟨[("0x1000", fA)], [("s", "0x1000")]⟩

/-- A rate store whose minute window is already at capacity at `now = 30`. -/
def fullMinuteRate : RateState :=
  ⟨[0, 0, 0, 0, 0], [0, 0, 0, 0, 0], [0, 0, 0, 0, 0]⟩

/-- Oracle used for the rejected-turn witness. -/
def oC10 : Oracle := { emptyOracle with now := 30 }

/-! # Theorems -/

/-! ## Association-list and stream helpers -/

theorem lookup_insertAL_self {α : Type} (l : List (String × α)) (k : String) (v : α) :
    (insertAL l k v).lookup k = some v := by
  induction l with
  | nil => simp [insertAL, List.lookup]
  | cons p t ih =>
    obtain ⟨a, b⟩ := p
    by_cases h : a = k
    · simp [insertAL, h, List.lookup]
    · have h' : (k == a) = false := beq_eq_false_iff_ne.mpr (fun hh => h hh.symm)
      simp [insertAL, h, List.lookup, ih, h']

theorem lookup_insertAL_ne {α : Type} (l : List (String × α)) (k k' : String) (v : α)
    (hk : k' ≠ k) : (insertAL l k v).lookup k' = l.lookup k' := by
  induction l with
  | nil =>
    have h' : (k' == k) = false := beq_eq_false_iff_ne.mpr hk
    simp [insertAL, List.lookup, h']
  | cons p t ih =>
    obtain ⟨a, b⟩ := p
    by_cases h : a = k
    · subst h
      have h' : (k' == a) = false := beq_eq_false_iff_ne.mpr hk
      simp [insertAL, List.lookup, h']
    · simp [insertAL, h, List.lookup, ih]

theorem visibleReplyText_map_reply (l : List String) :
    visibleReplyText (l.map Event.reply) = String.join l := by
  simp [visibleReplyText, List.filterMap_map]
  congr 1
  exact List.filterMap_some l

/-! ## C5 — tool execution boundary -/

/-- C5: `execute_tool` never raises past its boundary: an unregistered
name returns a failure result whose error text is exactly
`"Tool not found: <name>"`; a handler that raises yields a failure result
carrying the exception text; a handler that returns normally yields a
success result wrapping its return value.  (Totality of the embedding
reflects that every Python path is caught and returns a dict.) -/
theorem execute_tool_boundary (svc : ToolRegistry) (now : Int) (name : String) (args : Args) :
    (svc.get_tool name = none →
      svc.execute_tool now name args =
        ⟨false, none, some ("Tool not found: " ++ name), none, none⟩) ∧
    (∀ t, svc.get_tool name = some t →
      (∀ e, t.handler args = Except.error e →
        svc.execute_tool now name args = ⟨false, none, some e, some t.name, some now⟩) ∧
      (∀ r, t.handler args = Except.ok r →
        svc.execute_tool now name args = ⟨true, some r, none, some t.name, some now⟩)) := by
  refine ⟨fun h => ?_, fun t ht => ⟨fun e he => ?_, fun r hr => ?_⟩⟩
  · simp [ToolRegistry.execute_tool, h]
  · simp [ToolRegistry.execute_tool, AITool.execute, ht, he]
  · simp [ToolRegistry.execute_tool, AITool.execute, ht, hr]

/-- Witness for C5: in the sample registry, the unknown name
`nonexistent_tool` yields exactly the spec's failure dict, a raising
handler is converted to a failure with the exception text, and a normal
handler is wrapped in a success result. -/
theorem execute_tool_boundary_witness :
    sampleRegistry.execute_tool 0 "nonexistent_tool" [] =
      ⟨false, none, some "Tool not found: nonexistent_tool", none, none⟩ ∧
    sampleRegistry.execute_tool 0 "boom" [] =
      ⟨false, none, some "handler exploded", some "boom", some 0⟩ ∧
    sampleRegistry.execute_tool 0 "echo" [] =
      ⟨true, some "echoed", none, some "echo", some 0⟩ :=
  ⟨(execute_tool_boundary sampleRegistry 0 "nonexistent_tool" []).1 rfl,
   ((execute_tool_boundary sampleRegistry 0 "boom" []).2 failTool rfl).1 "handler exploded" rfl,
   ((execute_tool_boundary sampleRegistry 0 "echo" []).2 echoTool rfl).2 "echoed" rfl⟩

/-! ## C9 — eviction leaves the ContextProvider cursor behind -/

/-- C9 (code inspection at the failing input): the inactivity sweep
removes the stale session and clears the `SessionManager` associations,
but the `FunctionContextService.session_context_states` cursor binding
for the evicted session survives — contradicting the claim (and the
`clear_session_associations` docstring) that no session-to-function
association survives eviction. -/
theorem evicted_session_cursor_survives :
    (cleanup_old_sessions 100000 [("s", oldSession)] sm9 ctx9).1 = [] ∧
    (cleanup_old_sessions 100000 [("s", oldSession)] sm9 ctx9).2.1.session_function_mappings
      = [] ∧
    (cleanup_old_sessions 100000 [("s", oldSession)] sm9 ctx9).2.1.current_session_by_user
      = [] ∧
    (cleanup_old_sessions 100000 [("s", oldSession)] sm9
      ctx9).2.2.session_context_states.lookup "s" = some "0x1000" := by
  decide

/-! ## C10 — a rejected turn has no effects -/

/-- C10: when the rate limiter rejects the inbound message, the turn
emits exactly one event and leaves all session state unchanged: the
session store and the collaborator state are untouched, and no completion
request, tool execution or naming attempt is issued. -/
theorem rate_limited_turn_no_effects (o : Oracle) (exec : String → Args → ToolExecutionResult)
    (rate : RateState) (sessions : SessionStore) (collab : CollabState) (inp : TurnInput)
    (h : (check_rate_limit o.now rate).1 = false) :
    let r := streamChatResponse o exec rate sessions collab inp
    r.events.length = 1 ∧ r.sessions = sessions ∧ r.collab = collab ∧
    r.executed = 0 ∧ r.completionCalls = 0 ∧ r.nameAttempts = 0 := by
  simp [streamChatResponse, h]

/-- Witness for C10: a store whose minute window is full rejects the
check, and the turn leaves everything untouched. -/
theorem rate_limited_turn_no_effects_witness :
    (check_rate_limit 30 fullMinuteRate).1 = false ∧
    ((streamChatResponse oC10 execStub fullMinuteRate [] collab0 inpManual).events.length = 1 ∧
     (streamChatResponse oC10 execStub fullMinuteRate [] collab0 inpManual).sessions = [] ∧
     (streamChatResponse oC10 execStub fullMinuteRate [] collab0 inpManual).collab = collab0 ∧
     (streamChatResponse oC10 execStub fullMinuteRate [] collab0 inpManual).executed = 0 ∧
     (streamChatResponse oC10 execStub fullMinuteRate [] collab0 inpManual).completionCalls = 0 ∧
     (streamChatResponse oC10 execStub fullMinuteRate [] collab0 inpManual).nameAttempts = 0) :=
  ⟨by decide,
   rate_limited_turn_no_effects oC10 execStub fullMinuteRate [] collab0 inpManual (by decide)⟩

/-! ## C7 — sliding-window admission -/

theorem dropWhile_head_false {p : Int → Bool} : ∀ {w : List Int},
    (∀ x, w.head? = some x → p x = false) → w.dropWhile p = w := by
  intro w h
  cases w with
  | nil => rfl
  | cons a t => simp [List.dropWhile_cons, h a rfl]

theorem pruneOld_fresh {now : Int} {w : List Int}
    (h : ∀ x, w.head? = some x → now - 86400 ≤ x) : pruneOld now w = w := by
  refine dropWhile_head_false (fun x hx => ?_)
  have := h x hx
  simp
  omega

theorem pruneBefore_fresh {cutoff : Int} {w : List Int}
    (h : ∀ x, w.head? = some x → cutoff ≤ x) : pruneBefore cutoff w = w := by
  refine dropWhile_head_false (fun x hx => ?_)
  have := h x hx
  simp
  omega

/-- One admission check in which every recorded entry is younger than a
minute and the shared window `w` holds fewer than five entries: allowed,
and `now` is recorded in all three windows. -/
theorem check_step_allow (now : Int) (w : List Int) (hlen : w.length < 5)
    (hfresh : ∀ x, w.head? = some x → now - 60 ≤ x) :
    check_rate_limit now ⟨w, w, w⟩ = (true, none, ⟨w ++ [now], w ++ [now], w ++ [now]⟩) := by
  have h1 : pruneOld now w = w := pruneOld_fresh (fun x hx => by have := hfresh x hx; omega)
  have h2 : pruneBefore (now - 60) w = w := pruneBefore_fresh (fun x hx => hfresh x hx)
  have h3 : pruneBefore (now - 3600) w = w :=
    pruneBefore_fresh (fun x hx => by have := hfresh x hx; omega)
  have h4 : pruneBefore (now - 86400) w = w :=
    pruneBefore_fresh (fun x hx => by have := hfresh x hx; omega)
  have hm : ¬ (w.length ≥ requests_per_minute) := by simp [requests_per_minute]; omega
  have hh : ¬ (w.length ≥ requests_per_hour) := by simp [requests_per_hour]; omega
  have hd : ¬ (w.length ≥ requests_per_day) := by simp [requests_per_day]; omega
  have da : ∀ c : Nat, w.length < c → dequeAppend c w now = w ++ [now] := fun c hc => by
    unfold dequeAppend
    rw [if_neg (by omega)]
  have da1 := da requests_per_minute (by simp [requests_per_minute]; omega)
  have da2 := da requests_per_hour (by simp [requests_per_hour]; omega)
  have da3 := da requests_per_day (by simp [requests_per_day]; omega)
  simp [check_rate_limit, h1, h2, h3, h4, hm, hh, hd, da1, da2, da3]

/-- One admission check with the minute window at capacity and every
entry younger than a minute: rejected naming the minute window, stores
unchanged. -/
theorem check_step_reject_minute (now : Int) (w : List Int) (hlen : w.length ≥ 5)
    (hfresh : ∀ x, w.head? = some x → now - 60 ≤ x) :
    check_rate_limit now ⟨w, w, w⟩ =
      (false, some "Rate limit exceeded: Too many requests per minute", ⟨w, w, w⟩) := by
  have h1 : pruneOld now w = w := pruneOld_fresh (fun x hx => by have := hfresh x hx; omega)
  have h2 : pruneBefore (now - 60) w = w := pruneBefore_fresh (fun x hx => hfresh x hx)
  have hm : w.length ≥ requests_per_minute := by simpa [requests_per_minute] using hlen
  simp [check_rate_limit, h1, h2, hm]

theorem dropWhile_length_le (p : Int → Bool) : ∀ (l : List Int),
    (l.dropWhile p).length ≤ l.length := by
  intro l
  induction l with
  | nil => simp
  | cons a t ih =>
    by_cases h : p a = true
    · simp only [List.dropWhile_cons, h]
      simp
      omega
    · simp [List.dropWhile_cons, eq_false_of_ne_true h]

theorem dropWhile_dropWhile_of_imp {p q : Int → Bool}
    (himp : ∀ x, q x = true → p x = true) :
    ∀ (l : List Int), (l.dropWhile q).dropWhile p = l.dropWhile p := by
  intro l
  induction l with
  | nil => rfl
  | cons a t ih =>
    by_cases hq : q a = true
    · have hp := himp a hq
      simp [List.dropWhile_cons, hq, hp, ih]
    · simp [List.dropWhile_cons, eq_false_of_ne_true hq]

/-- An admission check after the oldest minute-window entry has aged out:
allowed again (no window can still be at capacity). -/
theorem check_readmit (now t0 : Int) (rest : List Int)
    (hlen : rest.length ≤ 4) (hold : t0 < now - 60) :
    (check_rate_limit now ⟨t0 :: rest, t0 :: rest, t0 :: rest⟩).1 = true := by
  have hcollapse : (pruneOld now (t0 :: rest)).dropWhile (fun t => decide (t < now - 60)) =
      (t0 :: rest).dropWhile (fun t => decide (t < now - 60)) := by
    refine dropWhile_dropWhile_of_imp (fun x hx => ?_) (t0 :: rest)
    simp at hx ⊢
    omega
  have hminlen : (pruneBefore (now - 60) (pruneOld now (t0 :: rest))).length ≤ 4 := by
    have : (t0 :: rest).dropWhile (fun t => decide (t < now - 60)) =
        rest.dropWhile (fun t => decide (t < now - 60)) := by
      simp [List.dropWhile_cons]
      omega
    calc (pruneBefore (now - 60) (pruneOld now (t0 :: rest))).length
        = ((t0 :: rest).dropWhile (fun t => decide (t < now - 60))).length := by
          simp [pruneBefore, pruneOld] at hcollapse ⊢
          rw [hcollapse]
      _ = (rest.dropWhile (fun t => decide (t < now - 60))).length := by rw [this]
      _ ≤ rest.length := dropWhile_length_le _ rest
      _ ≤ 4 := hlen
  have hourlen : (pruneBefore (now - 3600) (pruneOld now (t0 :: rest))).length ≤ 5 := by
    calc (pruneBefore (now - 3600) (pruneOld now (t0 :: rest))).length
        ≤ (pruneOld now (t0 :: rest)).length := dropWhile_length_le _ _
      _ ≤ (t0 :: rest).length := dropWhile_length_le _ _
      _ ≤ 5 := by simp; omega
  have daylen : (pruneBefore (now - 86400) (pruneOld now (t0 :: rest))).length ≤ 5 := by
    calc (pruneBefore (now - 86400) (pruneOld now (t0 :: rest))).length
        ≤ (pruneOld now (t0 :: rest)).length := dropWhile_length_le _ _
      _ ≤ (t0 :: rest).length := dropWhile_length_le _ _
      _ ≤ 5 := by simp; omega
  have hm : ¬ ((pruneBefore (now - 60) (pruneOld now (t0 :: rest))).length ≥ requests_per_minute) := by
    simp [requests_per_minute]; omega
  have hh : ¬ ((pruneBefore (now - 3600) (pruneOld now (t0 :: rest))).length ≥ requests_per_hour) := by
    simp [requests_per_hour]; omega
  have hd : ¬ ((pruneBefore (now - 86400) (pruneOld now (t0 :: rest))).length ≥ requests_per_day) := by
    simp [requests_per_day]; omega
  simp [check_rate_limit, hm, hh, hd]

/-- C7: starting from an empty store, six admission checks inside one
minute: the first five are allowed and record their timestamp in all
three windows, the sixth is rejected with the message naming the minute
window (checked before hour and day) and records nothing; any later check
made after the oldest minute-window timestamp is more than one minute old
is admitted again. -/
theorem rate_limit_six_in_one_minute (t0 t1 t2 t3 t4 t5 : Int)
    (_h01 : t0 ≤ t1) (h12 : t1 ≤ t2) (h23 : t2 ≤ t3) (h34 : t3 ≤ t4) (h45 : t4 ≤ t5)
    (hwin : t5 ≤ t0 + 60) :
    check_rate_limit t0 emptyRate = (true, none, ⟨[t0], [t0], [t0]⟩) ∧
    check_rate_limit t1 ⟨[t0], [t0], [t0]⟩ =
      (true, none, ⟨[t0, t1], [t0, t1], [t0, t1]⟩) ∧
    check_rate_limit t2 ⟨[t0, t1], [t0, t1], [t0, t1]⟩ =
      (true, none, ⟨[t0, t1, t2], [t0, t1, t2], [t0, t1, t2]⟩) ∧
    check_rate_limit t3 ⟨[t0, t1, t2], [t0, t1, t2], [t0, t1, t2]⟩ =
      (true, none, ⟨[t0, t1, t2, t3], [t0, t1, t2, t3], [t0, t1, t2, t3]⟩) ∧
    check_rate_limit t4 ⟨[t0, t1, t2, t3], [t0, t1, t2, t3], [t0, t1, t2, t3]⟩ =
      (true, none,
        ⟨[t0, t1, t2, t3, t4], [t0, t1, t2, t3, t4], [t0, t1, t2, t3, t4]⟩) ∧
    check_rate_limit t5
        ⟨[t0, t1, t2, t3, t4], [t0, t1, t2, t3, t4], [t0, t1, t2, t3, t4]⟩ =
      (false, some "Rate limit exceeded: Too many requests per minute",
        ⟨[t0, t1, t2, t3, t4], [t0, t1, t2, t3, t4], [t0, t1, t2, t3, t4]⟩) ∧
    (∀ t6 : Int, t0 + 60 < t6 →
      (check_rate_limit t6
        ⟨[t0, t1, t2, t3, t4], [t0, t1, t2, t3, t4], [t0, t1, t2, t3, t4]⟩).1 = true) := by
  refine ⟨?_, ?_, ?_, ?_, ?_, ?_, ?_⟩
  · exact check_step_allow t0 [] (by simp) (by intro x hx; simp at hx)
  · exact check_step_allow t1 [t0] (by simp) (by intro x hx; simp at hx; omega)
  · exact check_step_allow t2 [t0, t1] (by simp) (by intro x hx; simp at hx; omega)
  · exact check_step_allow t3 [t0, t1, t2] (by simp) (by intro x hx; simp at hx; omega)
  · exact check_step_allow t4 [t0, t1, t2, t3] (by simp) (by intro x hx; simp at hx; omega)
  · exact check_step_reject_minute t5 [t0, t1, t2, t3, t4] (by simp)
      (by intro x hx; simp at hx; omega)
  · intro t6 h6
    exact check_readmit t6 t0 [t1, t2, t3, t4] (by simp) (by omega)

/-- Witness for C7 at concrete times 0,10,20,30,40,50 with a re-check at
time 100. -/
theorem rate_limit_six_in_one_minute_witness :
    check_rate_limit 50 ⟨[0, 10, 20, 30, 40], [0, 10, 20, 30, 40], [0, 10, 20, 30, 40]⟩ =
      (false, some "Rate limit exceeded: Too many requests per minute",
        ⟨[0, 10, 20, 30, 40], [0, 10, 20, 30, 40], [0, 10, 20, 30, 40]⟩) ∧
    (check_rate_limit 100
      ⟨[0, 10, 20, 30, 40], [0, 10, 20, 30, 40], [0, 10, 20, 30, 40]⟩).1 = true := by
  have h := rate_limit_six_in_one_minute 0 10 20 30 40 50
    (by decide) (by decide) (by decide) (by decide) (by decide) (by decide)
  exact ⟨h.2.2.2.2.2.1, h.2.2.2.2.2.2 100 (by decide)⟩

/-! ## C1 — bounded iteration with a visible cap notice -/

theorem getLast?_appendSingleton {α : Type} (l : List α) (x : α) :
    (l ++ [x]).getLast? = some x := by
  rw [List.getLast?_append_of_ne_nil l (by simp)]
  rfl

/-- When every selection phase keeps proposing at least one executable
call, the loop spends all its fuel: one execution per iteration. -/
theorem runLoop_executed_eq_fuel (o : Oracle) (exec : String → Args → ToolExecutionResult) :
    ∀ (fuel k : Nat) (q : List ToolCallRec), q ≠ [] →
      (∀ j, executableCalls (assembleDeltas (o.loopSelect j)) ≠ []) →
      (runLoop o exec fuel k q).executed = fuel := by
  intro fuel
  induction fuel with
  | zero => intro k q _ _; rfl
  | succ n ih =>
    intro k q hq hsel
    cases q with
    | nil => exact absurd rfl hq
    | cons c rest =>
      have hne : rest ++ executableCalls (assembleDeltas (o.loopSelect k)) ≠ [] := by
        intro h
        exact hsel k (List.append_eq_nil.mp h).2
      simp [runLoop, ih (k + 1) _ hne hsel]

/-- C1: in a tool-augmented turn in which the first selection phase and
every in-loop selection phase yield at least one executable call, the
EXECUTE loop performs exactly `max_iterations` (5) tool executions and
stops; afterwards the turn still streams its summary and ends with a
visible notice reporting the executed-call count, which also terminates
the reply recorded for the turn — a controlled termination, not an
error. -/
theorem cap_terminates_with_notice (o : Oracle) (exec : String → Args → ToolExecutionResult)
    (rate : RateState) (sessions : SessionStore) (collab : CollabState) (inp : TurnInput)
    (hrate : (check_rate_limit o.now rate).1 = true)
    (hai : inp.use_ai_tools = true)
    (hkey : o.apiKeySet = true)
    (hsel0 : executableCalls (assembleDeltas o.selectDeltas) ≠ [])
    (hsel : ∀ j, executableCalls (assembleDeltas (o.loopSelect j)) ≠ []) :
    (streamChatResponse o exec rate sessions collab inp).executed = max_iterations ∧
    (streamChatResponse o exec rate sessions collab inp).events.getLast? =
      some (Event.reply (limitMsg max_iterations)) ∧
    ∃ pre, (streamChatResponse o exec rate sessions collab inp).fullReply =
      pre ++ limitMsg max_iterations := by
  have hex := runLoop_executed_eq_fuel o exec max_iterations 0 _ hsel0 hsel
  have hne : (runLoop o exec max_iterations 0
      (executableCalls (assembleDeltas o.selectDeltas))).executed ≠ 0 := by
    rw [hex]; decide
  have h5 : ¬ (max_iterations = 0) := by decide
  refine ⟨?_, ?_, ?_⟩
  · simp [streamChatResponse, aiBody, hrate, hai, hkey, hsel0, hne, hex, h5]
  · simp only [streamChatResponse, aiBody]
    simp [hrate, hai, hkey, hsel0, hne, hex, h5, ← List.append_assoc, getLast?_appendSingleton]
  · refine ⟨?_, ?_⟩
    · exact String.join (o.initialFragments.filter (fun c => c ≠ "")) ++
        String.join (o.reasonFragments.filter (fun c => c ≠ "")) ++
        String.join (o.summaryFragments.filter (fun c => c ≠ ""))
    · simp [streamChatResponse, aiBody, hrate, hai, hkey, hsel0, hne, hex, h5,
        String.append_assoc]

/-- Witness for C1: with the oracle whose every selection proposes one
more `get_pseudocode` call, the turn executes exactly five tools and the
last streamed event is the completion notice. -/
theorem cap_terminates_with_notice_witness :
    (streamChatResponse oC1 execStub emptyRate [] collab0 inpAI).executed = max_iterations ∧
    (streamChatResponse oC1 execStub emptyRate [] collab0 inpAI).events.getLast? =
      some (Event.reply (limitMsg max_iterations)) := by
  have hone : executableCalls (assembleDeltas [dSelect]) ≠ [] := by decide
  have h := cap_terminates_with_notice oC1 execStub emptyRate [] collab0 inpAI
    (by decide) rfl rfl hone (fun _ => hone)
  exact ⟨h.1, h.2.1⟩

/-! ## Plumbing: a completing turn stores its body reply -/

/-- A loop pass on a non-empty queue with fuel left executes at least one
tool. -/
theorem runLoop_executed_ne_zero (o : Oracle) (exec : String → Args → ToolExecutionResult)
    (fuel k : Nat) (q : List ToolCallRec) (hq : q ≠ []) (hf : fuel ≠ 0) :
    (runLoop o exec fuel k q).executed ≠ 0 := by
  cases fuel with
  | zero => exact absurd rfl hf
  | succ n =>
    cases q with
    | nil => exact absurd rfl hq
    | cons c rest => simp [runLoop]

/-- A completing turn (admitted, API key set) streams its mode body's
events and records the body's `full_reply` as the one assistant message
appended to the session. -/
theorem streamChatResponse_body_fields (o : Oracle)
    (exec : String → Args → ToolExecutionResult)
    (rate : RateState) (sessions : SessionStore) (collab : CollabState) (inp : TurnInput)
    (hrate : (check_rate_limit o.now rate).1 = true)
    (hkey : o.apiKeySet = true) :
    (streamChatResponse o exec rate sessions collab inp).events =
      (if inp.use_ai_tools then aiBody o exec else manualBody o).events ∧
    (streamChatResponse o exec rate sessions collab inp).executed =
      (if inp.use_ai_tools then aiBody o exec else manualBody o).executed ∧
    lastStoredMessage (streamChatResponse o exec rate sessions collab inp) =
      some ("assistant",
        (if inp.use_ai_tools then aiBody o exec else manualBody o).fullReply) := by
  refine ⟨?_, ?_, ?_⟩ <;>
    simp [streamChatResponse, lastStoredMessage, hrate, hkey, lookup_insertAL_self,
      getLast?_appendSingleton]

/-- The reply text a tool-augmented body accumulates: plan fragments,
pre-loop reasoning fragments, then (when the selection queue was
non-empty) summary fragments and the executed-call notice. -/
theorem aiBody_fullReply (o : Oracle) (exec : String → Args → ToolExecutionResult) :
    (aiBody o exec).fullReply =
      String.join (o.initialFragments.filter (fun c => c ≠ "")) ++
      String.join (o.reasonFragments.filter (fun c => c ≠ "")) ++
      (if executableCalls (assembleDeltas o.selectDeltas) ≠ [] then
        String.join (o.summaryFragments.filter (fun c => c ≠ "")) ++
        limitMsg (runLoop o exec max_iterations 0
          (executableCalls (assembleDeltas o.selectDeltas))).executed
      else "") := by
  by_cases hq : executableCalls (assembleDeltas o.selectDeltas) = []
  · simp [aiBody, hq]
  · have hne := runLoop_executed_ne_zero o exec max_iterations 0 _ hq (by decide)
    simp [aiBody, hq, hne, String.append_assoc]

/-! ## C2 — what the stored assistant message is made of -/

/-- C2 counterexample: in a completing tool-augmented turn whose pre-loop
reasoning streamed the fragment `"Deep thought."` tagged `thinking`, the
assistant message recorded in history is `"Plan.Deep thought."` — it
contains the thinking-tagged fragment — while the concatenation of the
visible reply fragments is only `"Plan."`; so the stored message does not
equal the visible concatenation and does not exclude thinking-tagged
fragments. -/
theorem thinking_included_in_history_counterexample :
    lastStoredMessage (streamChatResponse oC2 execStub emptyRate [] collab0 inpAI) =
      some ("assistant", "Plan.Deep thought.") ∧
    (streamChatResponse oC2 execStub emptyRate [] collab0 inpAI).events =
      [Event.reply "Plan.", Event.thinking "Deep thought."] ∧
    visibleReplyText [Event.reply "Plan.", Event.thinking "Deep thought."] = "Plan." ∧
    ("Plan.Deep thought." : String) ≠ "Plan." :=
  ⟨rfl, rfl, rfl, by decide⟩

/-- C2 (amended): in every completing tool-augmented turn, the single
assistant message appended to history is the concatenation of the plan
fragments, the *pre-loop reasoning fragments* (which were streamed tagged
`thinking`), and — when the selection queue was non-empty — the summary
fragments followed by the executed-call notice.  In-loop thinking
fragments, `tool_call` markers and control events are excluded. -/
theorem assistant_message_composition (o : Oracle) (exec : String → Args → ToolExecutionResult)
    (rate : RateState) (sessions : SessionStore) (collab : CollabState) (inp : TurnInput)
    (hrate : (check_rate_limit o.now rate).1 = true)
    (hai : inp.use_ai_tools = true)
    (hkey : o.apiKeySet = true) :
    lastStoredMessage (streamChatResponse o exec rate sessions collab inp) =
      some ("assistant",
        String.join (o.initialFragments.filter (fun c => c ≠ "")) ++
        String.join (o.reasonFragments.filter (fun c => c ≠ "")) ++
        (if executableCalls (assembleDeltas o.selectDeltas) ≠ [] then
          String.join (o.summaryFragments.filter (fun c => c ≠ "")) ++
          limitMsg (runLoop o exec max_iterations 0
            (executableCalls (assembleDeltas o.selectDeltas))).executed
        else "")) := by
  have h := (streamChatResponse_body_fields o exec rate sessions collab inp hrate hkey).2.2
  rw [hai] at h
  simp only [if_true] at h
  rw [h, aiBody_fullReply]

/-- Witness for the amended C2 at the concrete two-fragment turn. -/
theorem assistant_message_composition_witness :
    lastStoredMessage (streamChatResponse oC2 execStub emptyRate [] collab0 inpAI) =
      some ("assistant", "Plan.Deep thought.") := by
  have h := assistant_message_composition oC2 execStub emptyRate [] collab0 inpAI
    (by decide) rfl rfl
  exact h.trans (by rfl)

/-! ## C3 — manual mode streams exactly what it stores -/

/-- Every event a manual-mode body streams is a plain reply fragment. -/
theorem manualBody_events_reply (o : Oracle) :
    ∀ e ∈ (manualBody o).events, ∃ ctext, e = Event.reply ctext := by
  simp only [manualBody]
  split
  · intro e he
    simp at he
    exact ⟨manualFallbackMsg, he⟩
  · intro e he
    simp [List.mem_map] at he
    obtain ⟨x, -, rfl⟩ := he
    exact ⟨x, rfl⟩

/-- Concatenating a manual-mode body's streamed reply fragments yields
exactly the reply it accumulates. -/
theorem manualBody_visible (o : Oracle) :
    visibleReplyText (manualBody o).events = (manualBody o).fullReply := by
  simp only [manualBody]
  split
  · rfl
  · exact visibleReplyText_map_reply _

/-- C3: in a completing manual (non-tool) turn, every streamed event is a
plain reply fragment, and concatenating the streamed reply fragments in
delivery order is exactly the assistant message recorded in history — no
fragment lost, none duplicated. -/
theorem manual_mode_stream_equals_history (o : Oracle)
    (exec : String → Args → ToolExecutionResult)
    (rate : RateState) (sessions : SessionStore) (collab : CollabState) (inp : TurnInput)
    (hrate : (check_rate_limit o.now rate).1 = true)
    (hmanual : inp.use_ai_tools = false)
    (hkey : o.apiKeySet = true) :
    (∀ e ∈ (streamChatResponse o exec rate sessions collab inp).events,
      ∃ ctext, e = Event.reply ctext) ∧
    lastStoredMessage (streamChatResponse o exec rate sessions collab inp) =
      some ("assistant",
        visibleReplyText (streamChatResponse o exec rate sessions collab inp).events) := by
  obtain ⟨hev, -, hmsg⟩ := streamChatResponse_body_fields o exec rate sessions collab inp hrate hkey
  rw [hmanual] at hev hmsg
  simp only [if_false, Bool.false_eq_true] at hev hmsg
  constructor
  · rw [hev]
    exact manualBody_events_reply o
  · rw [hev, hmsg, manualBody_visible]

/-- Witness for C3: the two manual fragments `"Hello "` and `"world"`
are streamed and stored identically. -/
theorem manual_mode_stream_equals_history_witness :
    lastStoredMessage (streamChatResponse oC3 execStub emptyRate [] collab0 inpManual) =
      some ("assistant",
        visibleReplyText (streamChatResponse oC3 execStub emptyRate [] collab0 inpManual).events) :=
  (manual_mode_stream_equals_history oC3 execStub emptyRate [] collab0 inpManual
    (by decide) rfl rfl).2

/-! ## C4 — recovered tool calls are synthesized but never executed -/

/-- C4 (code evaluation at the failing input): in a tool-augmented turn
whose structured selection yields zero calls while the streamed text
contains `"calling get_pseudocode"`, the recovery path synthesizes a
`get_pseudocode` call with empty arguments and reassigns `tool_calls` —
but the turn executes zero tools, streams no `tool_call` marker and no
summary, and ends with the reasoning text as the stored answer: the
synthesized calls are dead. -/
theorem recovery_calls_never_executed :
    (streamChatResponse oC4 execStub emptyRate [] collab0 inpAI).toolCallsAfter =
      [⟨"", "get_pseudocode", emptyArgsText⟩] ∧
    (streamChatResponse oC4 execStub emptyRate [] collab0 inpAI).executed = 0 ∧
    (streamChatResponse oC4 execStub emptyRate [] collab0 inpAI).events =
      [Event.reply "I will start by calling get_pseudocode to inspect the code."] ∧
    lastStoredMessage (streamChatResponse oC4 execStub emptyRate [] collab0 inpAI) =
      some ("assistant", "I will start by calling get_pseudocode to inspect the code.") :=
  ⟨rfl, rfl, rfl, rfl⟩

/-! ## C6 — the tool cursor is a process-wide field, not session-scoped -/

/-- C6 counterexample: the "current analysis target" of a tool execution
is resolved through the single process-wide `current_session_id` field of
`AIToolsService`, not through the cursor of the session the tool runs
for.  With sessions `A` and `B` bound to different functions, a
`set_session "B"` interleaved after `set_session "A"` makes the next
pseudocode read — issued on behalf of `A` — return `B`'s function even
though `A`'s own cursor never changed; and a `jump_to_function` issued
while `B` is globally current rewrites `B`'s cursor. -/
theorem shared_cursor_counterexample :
    toolGetPseudocode (set_session ts0 ctx6 "A") ctx6 = "Pseudocode:\nPA" ∧
    toolGetPseudocode (set_session (set_session ts0 ctx6 "A") ctx6 "B") ctx6 =
      "Pseudocode:\nPB" ∧
    ctx6.session_context_states.lookup "A" = some "0x1000" ∧
    ctx6.session_context_states.lookup "B" = some "0x2000" ∧
    toolGetPseudocode (set_session (set_session ts0 ctx6 "A") ctx6 "B") ctx6 ≠
      toolGetPseudocode (set_session ts0 ctx6 "A") ctx6 ∧
    (toolJumpToFunction (set_session (set_session ts0 ctx6 "A") ctx6 "B") ctx6
        "funcA").1.session_context_states.lookup "B" = some "0x1000" :=
  ⟨rfl, rfl, rfl, rfl, by decide, rfl⟩

/-- C6 (amended): every tool execution's target is determined by the
process-wide `current_session_id` field of the tool service composed with
the per-session cursor map: a pseudocode read returns the data cached for
the cursor of the *globally current* session, `set_session` overwrites
the global field (last call wins, regardless of which session the
in-flight turn serves), and `jump_to_function` mutates exactly the cursor
of the globally current session, leaving every other session's cursor
unchanged. -/
theorem tool_target_via_global_session (ts : ToolsServiceState) (ctx : CtxServiceState)
    (sid fid : String) (d : FuncData)
    (hcur : ts.current_session_id = some sid)
    (hcursor : ctx.session_context_states.lookup sid = some fid)
    (hdata : ctx.current_function_data.lookup fid = some d) :
    toolGetPseudocode ts ctx = "Pseudocode:\n" ++ d.pseudocode ∧
    (∀ s, (set_session ts ctx s).current_session_id = some s) ∧
    (∀ f s, s ≠ sid →
      (toolJumpToFunction ts ctx f).1.session_context_states.lookup s =
        ctx.session_context_states.lookup s) := by
  refine ⟨?_, ?_, ?_⟩
  · simp [toolGetPseudocode, hcur, hcursor, hdata]
  · intro s
    simp only [set_session]
    split
    · rfl
    · split <;> rfl
  · intro f s hs
    simp only [toolJumpToFunction]
    by_cases hb : truthyS ts.current_binary_name = false
    · simp [hb]
    · simp only [hb, if_false]
      by_cases hfe : get_binary_functions ts = []
      · simp [hfe]
      · simp only [hfe, if_false]
        cases hf : (get_binary_functions ts).find? (fun g =>
            pyLower f = pyLower g.function_name ∨ pyLower f = pyLower g.address) with
        | none => simp [hf]
        | some g =>
          simp only [hf]
          rw [hcur]
          by_cases hc : (ctx.current_function_data.lookup g.address).isNone
          · simp [hc, set_session_function, set_current_function,
              lookup_insertAL_ne _ _ _ _ hs]
          · simp [hc, set_session_function, set_current_function,
              lookup_insertAL_ne _ _ _ _ hs]

/-- Witness for the amended C6 with session `A` globally current: the
read returns `A`'s cached pseudocode and a jump leaves `B`'s cursor
alone. -/
theorem tool_target_via_global_session_witness :
    toolGetPseudocode (set_session ts0 ctx6 "A") ctx6 = "Pseudocode:\n" ++ fA.pseudocode ∧
    (toolJumpToFunction (set_session ts0 ctx6 "A") ctx6 "funcB").1.session_context_states.lookup "B" =
      ctx6.session_context_states.lookup "B" := by
  have h := tool_target_via_global_session (set_session ts0 ctx6 "A") ctx6 "A" "0x1000" fA
    rfl rfl rfl
  exact ⟨h.1, h.2.2 "funcB" "B" (by decide)⟩

/-! ## C8 — exactly one naming attempt, never leaving the name unset -/

/-- C8: in a turn that creates a fresh session (no usable session id was
supplied), exactly one name-generation attempt is made — immediately
after the first user message is appended, before any reply exists and
whatever happens afterwards (even when the turn aborts on a missing API
key before streaming) — and the stored session's name is always set:
when the surrounding try-block raises it is the wrapper fallback
`generate_name`, otherwise whatever `generate_name_async` produced.  In
particular a failing generator still leaves the name set to the
deterministic fallback `generate_name_with_context` of the truncated
first message, no exception propagates (the embedding is total), and the
post-reply second naming site never fires (`nameAttempts` is exactly 1). -/
theorem first_message_naming (o : Oracle) (exec : String → Args → ToolExecutionResult)
    (rate : RateState) (sessions : SessionStore) (collab : CollabState) (inp : TurnInput)
    (hrate : (check_rate_limit o.now rate).1 = true)
    (hfresh : inp.session_id = none) :
    (streamChatResponse o exec rate sessions collab inp).nameAttempts = 1 ∧
    storedName (streamChatResponse o exec rate sessions collab inp) =
      some (some (if o.nameWrapperFails then generate_name o.newSessionId inp.message
        else generate_name_async o.newSessionId inp.message o.fc o.apiKeySet o.nameApi)) ∧
    (∀ e, o.nameApi = Except.error e → o.nameWrapperFails = false →
      storedName (streamChatResponse o exec rate sessions collab inp) =
        some (some (generate_name_with_context o.newSessionId inp.message o.fc))) := by
  refine ⟨?_, ?_, ?_⟩
  · cases hk : o.apiKeySet <;>
      simp [streamChatResponse, hrate, hfresh, hk, lookup_insertAL_self, freshSession]
  · cases hk : o.apiKeySet <;>
      simp [streamChatResponse, storedName, hrate, hfresh, hk, lookup_insertAL_self,
        freshSession]
  · intro e he hw
    cases hk : o.apiKeySet <;>
      simp [streamChatResponse, storedName, hrate, hfresh, hk, lookup_insertAL_self,
        freshSession, generate_name_async, he, hw]

/-- Witness for C8: a fresh manual-mode turn with the naming API raising
makes exactly one attempt and stores the deterministic context fallback
name. -/
theorem first_message_naming_witness :
    (streamChatResponse oC3 execStub emptyRate [] collab0 inpManual).nameAttempts = 1 ∧
    storedName (streamChatResponse oC3 execStub emptyRate [] collab0 inpManual) =
      some (some (generate_name_with_context "s1" "hi there" none)) := by
  have h := first_message_naming oC3 execStub emptyRate [] collab0 inpManual (by decide) rfl
  exact ⟨h.1, h.2.2 "api down" rfl rfl⟩

end AetherRE
